import Mathlib

/-!
Verification of the token / bullet module of a small 2D arcade shooter
(file game_token.py).  The module defines collectible tokens (score, ammo,
timed power-ups) and player-fired bullets, together with the
collision-and-effect logic tying them to the player and the enemies.

Modelling conventions.
* Python floats are modelled as rationals, Python ints as integers,
  the millisecond tick counter as a natural number.
* The mutable token list and enemy list are modelled as lists of values;
  Python object identity is modelled by an id field, so list removal is
  removal of the first occurrence.
* Python list.remove raises ValueError when the element is absent; this
  is modelled by an Option result (none = the exception).  A collect call
  whose removal step raises is modelled as an Except value whose error
  component carries the state at the moment the exception is raised.
* pygame.time.get_ticks() is a monotonic millisecond counter; functions
  that read it take the current tick value as an explicit argument.
-/

namespace GameToken

/-- Modelled from the spec: the pygame rectangle of the external
rendering library - an integer axis-aligned box given by its top-left
corner and its width and height. -/
structure Rect where
  x : ℤ
  y : ℤ
  w : ℤ
  h : ℤ
  deriving DecidableEq, Repr

/-- Modelled from the spec: pygame.Rect.collidepoint, the point-in-rect
test of the external library - true when the point lies inside the
rectangle, points on the right or bottom edge counting as outside. -/
def Rect.collidepoint (r : Rect) (p : ℚ × ℚ) : Bool :=
  decide ((r.x : ℚ) ≤ p.1) && decide (p.1 < ((r.x + r.w : ℤ) : ℚ)) &&
    decide ((r.y : ℚ) ≤ p.2) && decide (p.2 < ((r.y + r.h : ℤ) : ℚ))

/-- Python list.remove: remove the first occurrence of an element,
returning none (the ValueError) when the element is absent. -/
def removeFirst {α : Type} [DecidableEq α] : List α → α → Option (List α)
  | [], _ => none
  | x :: xs, a => if x = a then some xs else (removeFirst xs a).map (x :: ·)

/-- Python int() applied to a rational: truncation toward zero. -/
def pyInt (q : ℚ) : ℤ :=
  if 0 ≤ q then ⌊q⌋ else ⌈q⌉

/-- A PowerUpToken: a collectible whose effect is a 30-second timed
power-up.  Fields from Token.__init__ and PowerUpToken.__init__:
position, collision rect, and the nullable collection timestamp
start_time (None until collected).  The id field models Python object
identity inside the token list; label models the variant identity
string returned by __str__. -/
structure PowerUpToken where
  id : ℕ
  x : ℚ
  y : ℚ
  rect : Rect
  start_time : Option ℕ
  label : String
  deriving DecidableEq, Repr

/-- Modelled from the spec: the UserPlayer collaborator (character.py is
not part of the analysed sources).  Capabilities used by this module:
a rect center point, score and ammo with their mutators add_score and
add_ammo, and the single nullable power-up slot with its setter
set_power_up. -/
structure UserPlayer where
  center : ℤ × ℤ
  score : ℤ
  ammo : ℤ
  power_up : Option PowerUpToken
  deriving DecidableEq, Repr

/-- Modelled from the spec: player.add_score(n) adds n to the score. -/
def UserPlayer.add_score (p : UserPlayer) (n : ℤ) : UserPlayer :=
  { p with score := p.score + n }

/-- Modelled from the spec: player.add_ammo(n) adds n to the ammo. -/
def UserPlayer.add_ammo (p : UserPlayer) (n : ℤ) : UserPlayer :=
  { p with ammo := p.ammo + n }

/-- Modelled from the spec: player.set_power_up(t) stores the token in
the player's power-up slot. -/
def UserPlayer.set_power_up (p : UserPlayer) (t : PowerUpToken) : UserPlayer :=
  { p with power_up := some t }

/-- The integer center of the player's rect, as a rational point, as
passed to collidepoint in the source. -/
def UserPlayer.centerQ (p : UserPlayer) : ℚ × ℚ :=
  ((p.center.1 : ℚ), (p.center.2 : ℚ))

/-- A ScoreToken: position and collision rect from Token.__init__, plus
an id modelling Python object identity inside the token list. -/
structure ScoreToken where
  id : ℕ
  x : ℚ
  y : ℚ
  rect : Rect
  deriving DecidableEq, Repr

/-- An AmmoToken: position and collision rect from Token.__init__, plus
an id modelling Python object identity inside the token list. -/
structure AmmoToken where
  id : ℕ
  x : ℚ
  y : ℚ
  rect : Rect
  deriving DecidableEq, Repr

/-- ScoreToken.collect: if the player's rect center lies in the token's
rect, add 100 to the player's score and remove the token (by id) from
the token list.  The tokens.remove call can raise ValueError when the
token is absent; the error value carries the state at that point - the
score has already been increased. -/
def ScoreToken.collect (t : ScoreToken) (player : UserPlayer) (tokens : List ℕ) :
    Except (UserPlayer × List ℕ) (UserPlayer × List ℕ) :=
  if t.rect.collidepoint player.centerQ then
    match removeFirst tokens t.id with
    | some rest => .ok (player.add_score 100, rest)
    | none => .error (player.add_score 100, tokens)
  else .ok (player, tokens)

/-- AmmoToken.collect: if the player's rect center lies in the token's
rect, add 5 to the player's ammo and remove the token (by id) from the
token list.  The tokens.remove call can raise ValueError when the token
is absent; the error value carries the state at that point - the ammo
has already been increased. -/
def AmmoToken.collect (t : AmmoToken) (player : UserPlayer) (tokens : List ℕ) :
    Except (UserPlayer × List ℕ) (UserPlayer × List ℕ) :=
  if t.rect.collidepoint player.centerQ then
    match removeFirst tokens t.id with
    | some rest => .ok (player.add_ammo 5, rest)
    | none => .error (player.add_ammo 5, tokens)
  else .ok (player, tokens)

/-- PowerUpToken.collect at current tick now: if the player already has
a power-up, return with no effect; otherwise, on overlap of the player's
rect center with the token's rect, set start_time to now, remove the
token (by id) from the token list, and hand the token to the player via
set_power_up.  The tokens.remove call can raise ValueError when the
token is absent; the error value carries the state at that point -
start_time is already set, the power-up slot is still untouched. -/
def PowerUpToken.collect (t : PowerUpToken) (now : ℕ) (player : UserPlayer)
    (tokens : List ℕ) :
    Except (PowerUpToken × UserPlayer × List ℕ) (PowerUpToken × UserPlayer × List ℕ) :=
  if player.power_up.isSome then .ok (t, player, tokens)
  else if t.rect.collidepoint player.centerQ then
    let t1 : PowerUpToken := { t with start_time := some now }
    match removeFirst tokens t.id with
    | some rest => .ok (t1, player.set_power_up t1, rest)
    | none => .error (t1, player, tokens)
  else .ok (t, player, tokens)

/-- PowerUpToken.check_for_completion at current tick now: true iff at
least 30000 milliseconds have passed since start_time.  When start_time
is still None the subtraction raises TypeError, modelled as none. -/
def PowerUpToken.check_for_completion (t : PowerUpToken) (now : ℕ) : Option Bool :=
  match t.start_time with
  | none => none
  | some t0 => some (decide ((30000 : ℤ) ≤ (now : ℤ) - (t0 : ℤ)))

/-- Modelled from the spec: the constants module (not part of the
analysed sources) provides the shared direction-to-vector lookup table
MOVEMENT_COEFFICIENTS and the scalar BULLET_SPEED, injected here as
configuration. -/
structure MovementConfig where
  coefficients : String → ℚ × ℚ
  bullet_speed : ℚ

/-- A Bullet: floating-point position, a fixed 4x4 collision rect set at
construction, and a direction string indexing the movement table. -/
structure Bullet where
  x : ℚ
  y : ℚ
  rect : Rect
  direction : String
  deriving DecidableEq, Repr

/-- Bullet.__init__: position (x, y), rect of size 4x4 with top-left at
the integer-truncated (x - 2, y - 2), and the given direction. -/
def Bullet.make (x y : ℚ) (direction : String) : Bullet :=
  { x := x, y := y, rect := ⟨pyInt (x - 2), pyInt (y - 2), 4, 4⟩,
    direction := direction }

/-- Bullet.update: advance the position by the direction's movement
coefficients scaled by the bullet speed.  Only x and y change. -/
def Bullet.update (cfg : MovementConfig) (b : Bullet) : Bullet :=
  { b with
    x := b.x + (cfg.coefficients b.direction).1 * cfg.bullet_speed,
    y := b.y + (cfg.coefficients b.direction).2 * cfg.bullet_speed }

/-- An Enemy, as seen from this module: its collision rect, plus an id
modelling Python object identity inside the enemy list. -/
structure Enemy where
  id : ℕ
  rect : Rect
  deriving DecidableEq, Repr

/-- The loop body of Bullet.check_for_enemies: iterate over the snapshot
(enemies.copy()), removing from the live list every enemy whose rect
contains the bullet position and counting the kills.  A remove of an
absent enemy would raise ValueError, modelled as none. -/
def cfeLoop (pos : ℚ × ℚ) : List Enemy → List Enemy → ℕ → Option (List Enemy × ℕ)
  | [], cur, kills => some (cur, kills)
  | e :: rest, cur, kills =>
    if e.rect.collidepoint pos then
      match removeFirst cur e with
      | some cur1 => cfeLoop pos rest cur1 (kills + 1)
      | none => none
    else cfeLoop pos rest cur kills

/-- Bullet.check_for_enemies: remove from the enemy list every enemy hit
by the bullet's current position and return the updated list together
with the kill count. -/
def Bullet.check_for_enemies (b : Bullet) (enemies : List Enemy) :
    Option (List Enemy × ℕ) :=
  cfeLoop (b.x, b.y) enemies enemies 0

/-- Modelled from the spec: a concrete instance of the movement table
for the eight-way compass direction set with unit vectors and a positive
bullet speed, used to exercise the bullet at concrete inputs. -/
def compassConfig : MovementConfig where
  coefficients := fun d =>
    if d = "up" then (0, -1)
    else if d = "down" then (0, 1)
    else if d = "left" then (-1, 0)
    else if d = "right" then (1, 0)
    else if d = "up-left" then (-1, -1)
    else if d = "up-right" then (1, -1)
    else if d = "down-left" then (-1, 1)
    else if d = "down-right" then (1, 1)
    else (0, 0)
  bullet_speed := 5

/-! Helper lemmas about list removal. -/

theorem removeFirst_of_mem {α : Type} [DecidableEq α] (l : List α) (a : α)
    (h : a ∈ l) : removeFirst l a = some (l.erase a) := by
  induction l with
  | nil => cases h
  | cons x xs ih =>
    by_cases hx : x = a
    · subst hx
      simp [removeFirst, List.erase_cons_head]
    · have hmem : a ∈ xs := by
        rcases List.mem_cons.mp h with h1 | h1
        · exact absurd h1.symm hx
        · exact h1
      simp [removeFirst, hx, ih hmem, List.erase_cons_tail,
        beq_eq_false_iff_ne, Ne, hx]

theorem removeFirst_of_not_mem {α : Type} [DecidableEq α] (l : List α) (a : α)
    (h : a ∉ l) : removeFirst l a = none := by
  induction l with
  | nil => rfl
  | cons x xs ih =>
    have hx : x ≠ a := fun hxa => h (hxa ▸ List.mem_cons_self x xs)
    have hmem : a ∉ xs := fun hxs => h (List.mem_cons_of_mem x hxs)
    simp [removeFirst, hx, ih hmem]

/-! The claims. -/

/-- Claim C1: for a ScoreToken (resp. AmmoToken) present in the token
list, collect with an overlapping player center adds exactly 100 to the
score (resp. 5 to the ammo) through add_score (resp. add_ammo), leaving
every other player field unchanged, and removes the token from the
list; with a non-overlapping center it changes neither the player nor
the list. -/
theorem score_ammo_collect_spec (ts : ScoreToken) (ta : AmmoToken)
    (p : UserPlayer) (tokens : List ℕ)
    (hs : ts.id ∈ tokens) (ha : ta.id ∈ tokens) :
    (ts.rect.collidepoint p.centerQ = true →
      ts.collect p tokens = .ok (p.add_score 100, tokens.erase ts.id)) ∧
    (ts.rect.collidepoint p.centerQ = false →
      ts.collect p tokens = .ok (p, tokens)) ∧
    (ta.rect.collidepoint p.centerQ = true →
      ta.collect p tokens = .ok (p.add_ammo 5, tokens.erase ta.id)) ∧
    (ta.rect.collidepoint p.centerQ = false →
      ta.collect p tokens = .ok (p, tokens)) ∧
    p.add_score 100 = { p with score := p.score + 100 } ∧
    p.add_ammo 5 = { p with ammo := p.ammo + 5 } := by
  refine ⟨fun hhit => ?_, fun hmiss => ?_, fun hhit => ?_, fun hmiss => ?_,
    rfl, rfl⟩
  · simp [ScoreToken.collect, hhit, removeFirst_of_mem tokens ts.id hs]
  · simp [ScoreToken.collect, hmiss]
  · simp [AmmoToken.collect, hhit, removeFirst_of_mem tokens ta.id ha]
  · simp [AmmoToken.collect, hmiss]

/-- Witness for C1: a 10x10 score token at the origin and an ammo token
alike, a player centered at (5, 5), token list [1, 2]. -/
theorem score_ammo_collect_spec_witness :
    ((1 : ℕ) ∈ ([1, 2] : List ℕ)) ∧ ((2 : ℕ) ∈ ([1, 2] : List ℕ)) ∧
    (((⟨1, 0, 0, ⟨0, 0, 10, 10⟩⟩ : ScoreToken).rect.collidepoint
        (⟨(5, 5), 0, 0, none⟩ : UserPlayer).centerQ = true →
      (⟨1, 0, 0, ⟨0, 0, 10, 10⟩⟩ : ScoreToken).collect ⟨(5, 5), 0, 0, none⟩ [1, 2] =
        .ok ((⟨(5, 5), 0, 0, none⟩ : UserPlayer).add_score 100,
          ([1, 2] : List ℕ).erase 1)) ∧
     ((⟨1, 0, 0, ⟨0, 0, 10, 10⟩⟩ : ScoreToken).rect.collidepoint
        (⟨(5, 5), 0, 0, none⟩ : UserPlayer).centerQ = false →
      (⟨1, 0, 0, ⟨0, 0, 10, 10⟩⟩ : ScoreToken).collect ⟨(5, 5), 0, 0, none⟩ [1, 2] =
        .ok (⟨(5, 5), 0, 0, none⟩, [1, 2])) ∧
     ((⟨2, 0, 0, ⟨0, 0, 10, 10⟩⟩ : AmmoToken).rect.collidepoint
        (⟨(5, 5), 0, 0, none⟩ : UserPlayer).centerQ = true →
      (⟨2, 0, 0, ⟨0, 0, 10, 10⟩⟩ : AmmoToken).collect ⟨(5, 5), 0, 0, none⟩ [1, 2] =
        .ok ((⟨(5, 5), 0, 0, none⟩ : UserPlayer).add_ammo 5,
          ([1, 2] : List ℕ).erase 2)) ∧
     ((⟨2, 0, 0, ⟨0, 0, 10, 10⟩⟩ : AmmoToken).rect.collidepoint
        (⟨(5, 5), 0, 0, none⟩ : UserPlayer).centerQ = false →
      (⟨2, 0, 0, ⟨0, 0, 10, 10⟩⟩ : AmmoToken).collect ⟨(5, 5), 0, 0, none⟩ [1, 2] =
        .ok (⟨(5, 5), 0, 0, none⟩, [1, 2])) ∧
     (⟨(5, 5), 0, 0, none⟩ : UserPlayer).add_score 100 =
        { (⟨(5, 5), 0, 0, none⟩ : UserPlayer) with score := 0 + 100 } ∧
     (⟨(5, 5), 0, 0, none⟩ : UserPlayer).add_ammo 5 =
        { (⟨(5, 5), 0, 0, none⟩ : UserPlayer) with ammo := 0 + 5 }) :=
  ⟨by decide, by decide,
    score_ammo_collect_spec ⟨1, 0, 0, ⟨0, 0, 10, 10⟩⟩ ⟨2, 0, 0, ⟨0, 0, 10, 10⟩⟩
      ⟨(5, 5), 0, 0, none⟩ [1, 2] (by decide) (by decide)⟩

/-- Claim C2: for a PowerUpToken present in the token list and a player
with an empty power-up slot whose rect center overlaps the token's rect,
collect at tick now sets the token's start_time to now, removes the
token from the list, and stores the (timestamped) token in the player's
power-up slot, changing nothing else. -/
theorem powerup_collect_success (t : PowerUpToken) (now : ℕ)
    (p : UserPlayer) (tokens : List ℕ)
    (hfree : p.power_up = none) (hmem : t.id ∈ tokens)
    (hhit : t.rect.collidepoint p.centerQ = true) :
    t.collect now p tokens =
      .ok ({ t with start_time := some now },
        p.set_power_up { t with start_time := some now },
        tokens.erase t.id) ∧
    p.set_power_up { t with start_time := some now } =
      { p with power_up := some { t with start_time := some now } } := by
  refine ⟨?_, rfl⟩
  simp [PowerUpToken.collect, hfree, hhit, removeFirst_of_mem tokens t.id hmem,
    UserPlayer.set_power_up]

/-- Witness for C2: a 16x16 power-up token at the origin, a player
centered at (5, 5) with no active power-up, token list [7], tick 123. -/
theorem powerup_collect_success_witness :
    ((⟨(5, 5), 0, 0, none⟩ : UserPlayer).power_up = none) ∧
    ((7 : ℕ) ∈ ([7] : List ℕ)) ∧
    ((⟨7, 0, 0, ⟨0, 0, 16, 16⟩, none, "DoubleScore"⟩ : PowerUpToken).rect.collidepoint
        (⟨(5, 5), 0, 0, none⟩ : UserPlayer).centerQ = true) ∧
    ((⟨7, 0, 0, ⟨0, 0, 16, 16⟩, none, "DoubleScore"⟩ : PowerUpToken).collect 123
        ⟨(5, 5), 0, 0, none⟩ [7] =
      .ok (⟨7, 0, 0, ⟨0, 0, 16, 16⟩, some 123, "DoubleScore"⟩,
        (⟨(5, 5), 0, 0, none⟩ : UserPlayer).set_power_up
          ⟨7, 0, 0, ⟨0, 0, 16, 16⟩, some 123, "DoubleScore"⟩,
        ([7] : List ℕ).erase 7)) :=
  ⟨rfl, by decide, by decide,
    (powerup_collect_success ⟨7, 0, 0, ⟨0, 0, 16, 16⟩, none, "DoubleScore"⟩ 123
      ⟨(5, 5), 0, 0, none⟩ [7] rfl (by decide) (by decide)).1⟩

/-- Claim C6: for a PowerUpToken and a player whose power-up slot is
occupied, collect returns immediately with no effect: the token (its
start_time included), the player, and the token list are all unchanged,
whether or not the center overlaps the rect. -/
theorem powerup_collect_blocked (t : PowerUpToken) (now : ℕ)
    (p : UserPlayer) (tokens : List ℕ) (h : p.power_up ≠ none) :
    t.collect now p tokens = .ok (t, p, tokens) := by
  have hs : p.power_up.isSome = true := Option.isSome_iff_ne_none.mpr h
  simp [PowerUpToken.collect, hs]

/-- Witness for C6: a player already holding a power-up, centered inside
the candidate token's rect. -/
theorem powerup_collect_blocked_witness :
    ((⟨(5, 5), 0, 0,
        some ⟨9, 0, 0, ⟨0, 0, 16, 16⟩, some 0, "PiercingAmmo"⟩⟩ : UserPlayer).power_up ≠
      none) ∧
    ((⟨7, 0, 0, ⟨0, 0, 16, 16⟩, none, "DoubleScore"⟩ : PowerUpToken).collect 123
        ⟨(5, 5), 0, 0, some ⟨9, 0, 0, ⟨0, 0, 16, 16⟩, some 0, "PiercingAmmo"⟩⟩ [7] =
      .ok (⟨7, 0, 0, ⟨0, 0, 16, 16⟩, none, "DoubleScore"⟩,
        ⟨(5, 5), 0, 0, some ⟨9, 0, 0, ⟨0, 0, 16, 16⟩, some 0, "PiercingAmmo"⟩⟩,
        [7])) :=
  ⟨by decide,
    powerup_collect_blocked ⟨7, 0, 0, ⟨0, 0, 16, 16⟩, none, "DoubleScore"⟩ 123
      ⟨(5, 5), 0, 0, some ⟨9, 0, 0, ⟨0, 0, 16, 16⟩, some 0, "PiercingAmmo"⟩⟩ [7]
      (by decide)⟩

/-- Claim C10: collect is not atomic on the token-absent error path:
when the token overlaps the player's center but is absent from the
token list, the removal raises, and at that point the score (resp.
ammo) has already been increased; for a PowerUpToken (player slot
empty), start_time has already been set while the player's power-up
slot has not been touched. -/
theorem collect_error_path_not_atomic (ts : ScoreToken) (ta : AmmoToken)
    (tp : PowerUpToken) (now : ℕ) (p : UserPlayer) (tokens : List ℕ)
    (hs : ts.id ∉ tokens) (hsh : ts.rect.collidepoint p.centerQ = true)
    (ha : ta.id ∉ tokens) (hah : ta.rect.collidepoint p.centerQ = true)
    (hp : tp.id ∉ tokens) (hph : tp.rect.collidepoint p.centerQ = true)
    (hfree : p.power_up = none) :
    ts.collect p tokens = .error (p.add_score 100, tokens) ∧
    ta.collect p tokens = .error (p.add_ammo 5, tokens) ∧
    tp.collect now p tokens =
      .error ({ tp with start_time := some now }, p, tokens) := by
  refine ⟨?_, ?_, ?_⟩
  · simp [ScoreToken.collect, hsh, removeFirst_of_not_mem tokens ts.id hs]
  · simp [AmmoToken.collect, hah, removeFirst_of_not_mem tokens ta.id ha]
  · simp [PowerUpToken.collect, hfree, hph,
      removeFirst_of_not_mem tokens tp.id hp]

/-- Witness for C10: tokens overlapping the player's center at (5, 5)
but absent from the empty token list. -/
theorem collect_error_path_not_atomic_witness :
    ((1 : ℕ) ∉ ([] : List ℕ)) ∧ ((2 : ℕ) ∉ ([] : List ℕ)) ∧
    ((7 : ℕ) ∉ ([] : List ℕ)) ∧
    ((⟨1, 0, 0, ⟨0, 0, 10, 10⟩⟩ : ScoreToken).collect ⟨(5, 5), 0, 0, none⟩ [] =
      .error ((⟨(5, 5), 0, 0, none⟩ : UserPlayer).add_score 100, [])) ∧
    ((⟨2, 0, 0, ⟨0, 0, 10, 10⟩⟩ : AmmoToken).collect ⟨(5, 5), 0, 0, none⟩ [] =
      .error ((⟨(5, 5), 0, 0, none⟩ : UserPlayer).add_ammo 5, [])) ∧
    ((⟨7, 0, 0, ⟨0, 0, 16, 16⟩, none, "DoubleScore"⟩ : PowerUpToken).collect 123
        ⟨(5, 5), 0, 0, none⟩ [] =
      .error (⟨7, 0, 0, ⟨0, 0, 16, 16⟩, some 123, "DoubleScore"⟩,
        ⟨(5, 5), 0, 0, none⟩, [])) := by
  refine ⟨by decide, by decide, by decide, ?_, ?_, ?_⟩ <;>
  · have h := collect_error_path_not_atomic ⟨1, 0, 0, ⟨0, 0, 10, 10⟩⟩
      ⟨2, 0, 0, ⟨0, 0, 10, 10⟩⟩ ⟨7, 0, 0, ⟨0, 0, 16, 16⟩, none, "DoubleScore"⟩ 123
      ⟨(5, 5), 0, 0, none⟩ [] (by decide) (by decide) (by decide) (by decide)
      (by decide) (by decide) rfl
    first
    | exact h.1
    | exact h.2.1
    | exact h.2.2

/-- Claim C3: for a power-up collected at tick t0 and any current tick
t at or after t0, check_for_completion returns false when fewer than
30000 milliseconds have elapsed and true from 30000 milliseconds on,
the boundary tick t - t0 = 30000 included. -/
theorem check_for_completion_boundary (t : PowerUpToken) (t0 now : ℕ)
    (hst : t.start_time = some t0) (hle : t0 ≤ now) :
    (now - t0 < 30000 → t.check_for_completion now = some false) ∧
    (30000 ≤ now - t0 → t.check_for_completion now = some true) ∧
    (now - t0 = 30000 → t.check_for_completion now = some true) := by
  refine ⟨fun h => ?_, fun h => ?_, fun h => ?_⟩ <;>
  · simp only [PowerUpToken.check_for_completion, hst, Option.some.injEq]
    first
    | · rw [decide_eq_false_iff_not]
        omega
    | · rw [decide_eq_true_eq]
        omega

/-- Witness for C3: collection at tick 0, queries at the boundary tick
30000 (true) and via the false branch being vacuous there. -/
theorem check_for_completion_boundary_witness :
    ((⟨7, 0, 0, ⟨0, 0, 16, 16⟩, some 0, "DoubleScore"⟩ : PowerUpToken).start_time =
      some 0) ∧ (0 : ℕ) ≤ 30000 ∧
    ((30000 - 0 < 30000 →
      (⟨7, 0, 0, ⟨0, 0, 16, 16⟩, some 0, "DoubleScore"⟩ : PowerUpToken).check_for_completion
        30000 = some false) ∧
     (30000 ≤ 30000 - 0 →
      (⟨7, 0, 0, ⟨0, 0, 16, 16⟩, some 0, "DoubleScore"⟩ : PowerUpToken).check_for_completion
        30000 = some true) ∧
     (30000 - 0 = 30000 →
      (⟨7, 0, 0, ⟨0, 0, 16, 16⟩, some 0, "DoubleScore"⟩ : PowerUpToken).check_for_completion
        30000 = some true)) :=
  ⟨rfl, by decide,
    check_for_completion_boundary ⟨7, 0, 0, ⟨0, 0, 16, 16⟩, some 0, "DoubleScore"⟩
      0 30000 rfl (by decide)⟩

/-- Claim C8: check_for_completion requires a prior successful collect:
with start_time still unset the call fails (the None - int subtraction
raises, modelled as none), and with start_time set it is well defined
and returns a boolean. -/
theorem check_for_completion_precondition (t : PowerUpToken) (now : ℕ) :
    (t.start_time = none → t.check_for_completion now = none) ∧
    (∀ t0 : ℕ, t.start_time = some t0 →
      t.check_for_completion now =
        some (decide ((30000 : ℤ) ≤ (now : ℤ) - (t0 : ℤ)))) := by
  refine ⟨fun h => ?_, fun t0 h => ?_⟩ <;>
    simp [PowerUpToken.check_for_completion, h]

/-- Witness for C8: an uncollected power-up fails the completion check
at tick 5, and one collected at tick 0 returns a boolean there. -/
theorem check_for_completion_precondition_witness :
    ((⟨7, 0, 0, ⟨0, 0, 16, 16⟩, none, "DoubleScore"⟩ : PowerUpToken).start_time =
      none) ∧
    ((⟨7, 0, 0, ⟨0, 0, 16, 16⟩, none, "DoubleScore"⟩ : PowerUpToken).check_for_completion
      5 = none) ∧
    ((⟨8, 0, 0, ⟨0, 0, 16, 16⟩, some 0, "DoubleScore"⟩ : PowerUpToken).start_time =
      some 0) ∧
    ((⟨8, 0, 0, ⟨0, 0, 16, 16⟩, some 0, "DoubleScore"⟩ : PowerUpToken).check_for_completion
      5 = some (decide ((30000 : ℤ) ≤ ((5 : ℕ) : ℤ) - ((0 : ℕ) : ℤ)))) :=
  ⟨rfl,
    (check_for_completion_precondition
      ⟨7, 0, 0, ⟨0, 0, 16, 16⟩, none, "DoubleScore"⟩ 5).1 rfl,
    rfl,
    (check_for_completion_precondition
      ⟨8, 0, 0, ⟨0, 0, 16, 16⟩, some 0, "DoubleScore"⟩ 5).2 0 rfl⟩

/-! Helper lemmas about the bullet. -/

theorem iterate_update_direction (cfg : MovementConfig) (b : Bullet) (n : ℕ) :
    ((Bullet.update cfg)^[n] b).direction = b.direction := by
  induction n with
  | zero => rfl
  | succ n ih => rw [Function.iterate_succ_apply']; exact ih

theorem iterate_update_rect (cfg : MovementConfig) (b : Bullet) (n : ℕ) :
    ((Bullet.update cfg)^[n] b).rect = b.rect := by
  induction n with
  | zero => rfl
  | succ n ih => rw [Function.iterate_succ_apply']; exact ih

/-- Claim C7: after n update calls the bullet's position is the initial
position displaced n times by the direction's movement coefficients
scaled by the bullet speed. -/
theorem bullet_update_linear (cfg : MovementConfig) (b : Bullet) (n : ℕ) :
    ((Bullet.update cfg)^[n] b).x =
      b.x + n * ((cfg.coefficients b.direction).1 * cfg.bullet_speed) ∧
    ((Bullet.update cfg)^[n] b).y =
      b.y + n * ((cfg.coefficients b.direction).2 * cfg.bullet_speed) := by
  induction n with
  | zero => simp
  | succ n ih =>
    have hdir := iterate_update_direction cfg b n
    rw [Function.iterate_succ_apply']
    constructor
    · show ((Bullet.update cfg)^[n] b).x + _ = _
      rw [hdir, ih.1]
      push_cast
      ring
    · show ((Bullet.update cfg)^[n] b).y + _ = _
      rw [hdir, ih.2]
      push_cast
      ring

/-- Counterexample to claim C4: a bullet made at (10, 10) moving up
with the compass movement table has, after one update, position
(10, 5) but still the construction-time rect with top-left (8, 8) -
not the recentered top-left (8, 3) the claim requires. -/
theorem bullet_rect_stale_counterexample :
    ((Bullet.make 10 10 "up").update compassConfig).rect ≠
      ⟨pyInt (((Bullet.make 10 10 "up").update compassConfig).x - 2),
       pyInt (((Bullet.make 10 10 "up").update compassConfig).y - 2), 4, 4⟩ := by
  have hy : ((Bullet.make 10 10 "up").update compassConfig).y = 5 := by
    norm_num [Bullet.make, Bullet.update, compassConfig]
  have hrect : ((Bullet.make 10 10 "up").update compassConfig).rect =
      ⟨8, 8, 4, 4⟩ := by
    norm_num [Bullet.make, Bullet.update, pyInt]
  rw [hrect, hy]
  have h3 : pyInt ((5 : ℚ) - 2) = 3 := by norm_num [pyInt]
  rw [h3]
  intro h
  exact absurd (congrArg Rect.y h) (by decide)

/-- Claim C4 amended: the bullet's rect is fixed at construction - a
4x4 box with top-left at the integer-truncated (x0 - 2, y0 - 2) of the
initial position - and update never recenters it on the current
position. -/
theorem bullet_rect_fixed_at_construction (cfg : MovementConfig)
    (x y : ℚ) (d : String) (n : ℕ) :
    ((Bullet.update cfg)^[n] (Bullet.make x y d)).rect =
      ⟨pyInt (x - 2), pyInt (y - 2), 4, 4⟩ := by
  rw [iterate_update_rect]
  rfl

/-! Helper lemmas for the check_for_enemies loop. -/

theorem removeFirst_append_cons {α : Type} [DecidableEq α] (c : List α) (e : α)
    (rest : List α) (he : e ∉ c) :
    removeFirst (c ++ e :: rest) e = some (c ++ rest) := by
  induction c with
  | nil => simp [removeFirst]
  | cons x xs ih =>
    have hx : x ≠ e := fun h => he (h ▸ List.mem_cons_self x xs)
    have he2 : e ∉ xs := fun h => he (List.mem_cons_of_mem _ h)
    simp [removeFirst, hx, ih he2]

theorem cfeLoop_filter_count (pos : ℚ × ℚ) (snap : List Enemy) :
    ∀ (c : List Enemy) (k : ℕ),
      (∀ e ∈ c, e.rect.collidepoint pos = false) →
      cfeLoop pos snap (c ++ snap) k =
        some (c ++ snap.filter (fun e => !(e.rect.collidepoint pos)),
          k + snap.countP (fun e => e.rect.collidepoint pos)) := by
  induction snap with
  | nil =>
    intro c k _
    simp [cfeLoop]
  | cons e rest ih =>
    intro c k hc
    by_cases he : e.rect.collidepoint pos = true
    · have hne : e ∉ c := fun hm => by rw [hc e hm] at he; cases he
      have hrm := removeFirst_append_cons c e rest hne
      simp only [cfeLoop, he, if_true, hrm]
      rw [ih c (k + 1) hc]
      have hk : ∀ m : ℕ, k + 1 + m = k + (m + 1) := fun m => by omega
      simp [List.filter_cons, List.countP_cons, he, hk]
    · have he0 : e.rect.collidepoint pos = false := by
        simpa using he
      have hc2 : ∀ x ∈ c ++ [e], x.rect.collidepoint pos = false := by
        intro x hx
        rcases List.mem_append.mp hx with hx | hx
        · exact hc x hx
        · rcases List.mem_singleton.mp hx with rfl
          exact he0
      simp only [cfeLoop, he0, Bool.false_eq_true, if_false]
      rw [List.append_cons c e rest, ih (c ++ [e]) k hc2]
      simp [List.filter_cons, List.countP_cons, he0, List.append_assoc]

/-- Claim C5: check_for_enemies removes from the enemy list exactly the
enemies whose rect contains the bullet's current position, keeps the
rest, and returns the number removed - all hit enemies fall in a single
call, and the bullet itself is untouched. -/
theorem check_for_enemies_filter_count (b : Bullet) (enemies : List Enemy) :
    b.check_for_enemies enemies =
      some (enemies.filter (fun e => !(e.rect.collidepoint (b.x, b.y))),
        enemies.countP (fun e => e.rect.collidepoint (b.x, b.y))) := by
  have h := cfeLoop_filter_count (b.x, b.y) enemies [] 0 (by intro e he; cases he)
  simpa [Bullet.check_for_enemies] using h

/-- Claim C9: update changes only the bullet's position - rect and
direction keep their construction-time values across any number of
updates - and the enemy-hit test of check_for_enemies reads only the
bullet's current (x, y): two bullets agreeing on x and y get identical
results whatever their rect and direction. -/
theorem bullet_frame_conditions (cfg : MovementConfig) (n : ℕ)
    (b b2 : Bullet) (enemies : List Enemy)
    (hx : b.x = b2.x) (hy : b.y = b2.y) :
    ((Bullet.update cfg)^[n] b).rect = b.rect ∧
    ((Bullet.update cfg)^[n] b).direction = b.direction ∧
    b.check_for_enemies enemies = b2.check_for_enemies enemies := by
  refine ⟨iterate_update_rect cfg b n, iterate_update_direction cfg b n, ?_⟩
  simp [Bullet.check_for_enemies, hx, hy]

/-- Witness for C9: two bullets at (10, 10) with different rects and
directions, three compass updates, one enemy. -/
theorem bullet_frame_conditions_witness :
    ((⟨10, 10, ⟨8, 8, 4, 4⟩, "up"⟩ : Bullet).x =
      (⟨10, 10, ⟨0, 0, 1, 1⟩, "down"⟩ : Bullet).x) ∧
    ((⟨10, 10, ⟨8, 8, 4, 4⟩, "up"⟩ : Bullet).y =
      (⟨10, 10, ⟨0, 0, 1, 1⟩, "down"⟩ : Bullet).y) ∧
    (((Bullet.update compassConfig)^[3] ⟨10, 10, ⟨8, 8, 4, 4⟩, "up"⟩).rect =
      (⟨10, 10, ⟨8, 8, 4, 4⟩, "up"⟩ : Bullet).rect ∧
    ((Bullet.update compassConfig)^[3] ⟨10, 10, ⟨8, 8, 4, 4⟩, "up"⟩).direction =
      (⟨10, 10, ⟨8, 8, 4, 4⟩, "up"⟩ : Bullet).direction ∧
    (⟨10, 10, ⟨8, 8, 4, 4⟩, "up"⟩ : Bullet).check_for_enemies [⟨1, ⟨0, 0, 20, 20⟩⟩] =
      (⟨10, 10, ⟨0, 0, 1, 1⟩, "down"⟩ : Bullet).check_for_enemies
        [⟨1, ⟨0, 0, 20, 20⟩⟩]) :=
  ⟨rfl, rfl,
    bullet_frame_conditions compassConfig 3 ⟨10, 10, ⟨8, 8, 4, 4⟩, "up"⟩
      ⟨10, 10, ⟨0, 0, 1, 1⟩, "down"⟩ [⟨1, ⟨0, 0, 20, 20⟩⟩] rfl rfl⟩

end GameToken
